import Mathlib

/-!
Verification of the network-architecture module `model.py`.

The file shallowly embeds the parts of `model.py` that the specification's
testable properties talk about:

* tensors are modelled as `List ℚ` (a flat list of entries) when a claim is
  about the values flowing through a pipeline, and as `Shape4` (the four
  `N,C,H,W` extents) when a claim is about shape arithmetic;
* `nn.Sequential` is a left fold over a list of layer functions;
* layers whose internals are irrelevant to a claim (convolution weights,
  normalizations, activations) are abstract functions carried in a structure,
  exactly as the Python modules carry their sub-modules as attributes;
* the shape arithmetic of `Conv2d` / `ConvTranspose2d` follows the framework's
  documented output-size formulas;
* the configuration-string parsing of `SPADE.__init__` embeds the fixed
  regular expression `spade(\D+)(\d)x\d` under `re.search` semantics
  (leftmost match; the greedy `\D+` is forced to the maximal non-digit run
  because the following token is `\d`);
* fallible construction (`raise ValueError` / `raise NotImplementedError` /
  a failing `assert` / `.group` on `None`) becomes `Except` with the error
  text carried as a `List Char`.
-/

/-- A tensor's entries, flattened.  Enough structure for the value-level
claims: pointwise addition, scalar multiplication, an all-zero map. -/
abbrev Tensor := List ℚ

/-- Pointwise tensor addition (`x + out` in the residual blocks). -/
def addT (a b : Tensor) : Tensor := List.zipWith (· + ·) a b

/-- Multiplication of a tensor by a broadcast scalar
(`depth * random_tensor`, `depth * 0`). -/
def smulT (c : ℚ) (t : Tensor) : Tensor := t.map (fun a => c * a)

/-- `nn.Sequential`: apply the layers in order. -/
def sequentialT (layers : List (Tensor → Tensor)) (x : Tensor) : Tensor :=
  layers.foldl (fun a f => f a) x

/-- `ResidualBlock` (model.py lines 97-113): its `conv_block` is
`Sequential(ReflectionPad2d 1, Conv2d, norm_layer, ReLU, ReflectionPad2d 1,
Conv2d, norm_layer)`; the seven sub-layers are abstract functions. -/
structure ResidualBlock where
  pad1 : Tensor → Tensor
  conv1 : Tensor → Tensor
  norm1 : Tensor → Tensor
  act : Tensor → Tensor
  pad2 : Tensor → Tensor
  conv2 : Tensor → Tensor
  norm2 : Tensor → Tensor

/-- The `self.conv_block` sequential of `ResidualBlock.__init__`. -/
def ResidualBlock.conv_block (B : ResidualBlock) : Tensor → Tensor :=
  sequentialT [B.pad1, B.conv1, B.norm1, B.act, B.pad2, B.conv2, B.norm2]

/-- `ResidualBlock.forward`: `return x + self.conv_block(x)`. -/
def ResidualBlock.forward (B : ResidualBlock) (x : Tensor) : Tensor :=
  addT x (B.conv_block x)

/-- `SPADEResidualBlock` (model.py lines 73-94): `conv_block0 =
Sequential(ReflectionPad2d 1, Conv2d)`, `norm_layer0 = SPADE`, `conv_block1 =
Sequential(ReLU, ReflectionPad2d 1, Conv2d)`, `norm_layer1 = SPADE`.  The two
SPADE layers take the condition map as a second argument. -/
structure SPADEResidualBlock where
  pad0 : Tensor → Tensor
  conv0 : Tensor → Tensor
  norm_layer0 : Tensor → Tensor → Tensor
  relu1 : Tensor → Tensor
  pad1 : Tensor → Tensor
  conv1 : Tensor → Tensor
  norm_layer1 : Tensor → Tensor → Tensor

/-- `self.conv_block0` of `SPADEResidualBlock.__init__`. -/
def SPADEResidualBlock.conv_block0 (B : SPADEResidualBlock) : Tensor → Tensor :=
  sequentialT [B.pad0, B.conv0]

/-- `self.conv_block1` of `SPADEResidualBlock.__init__`. -/
def SPADEResidualBlock.conv_block1 (B : SPADEResidualBlock) : Tensor → Tensor :=
  sequentialT [B.relu1, B.pad1, B.conv1]

/-- `SPADEResidualBlock.forward (x, depth)` (model.py lines 89-94). -/
def SPADEResidualBlock.forward (B : SPADEResidualBlock) (x depth : Tensor) : Tensor :=
  let out := B.conv_block0 x
  let out := B.norm_layer0 out depth
  let out := B.conv_block1 out
  let out := B.norm_layer1 out depth
  addT x out

/-- `ResnetBlock` (model.py lines 246-285) at the value level: its
`conv_block` was assembled by `build_conv_block` into a `Sequential`, carried
here as the list of its layer functions. -/
structure ResnetBlock where
  layers : List (Tensor → Tensor)

/-- `self.conv_block` of `ResnetBlock`. -/
def ResnetBlock.conv_block (B : ResnetBlock) : Tensor → Tensor :=
  sequentialT B.layers

/-- `ResnetBlock.forward`: `out = x + self.conv_block(x); return out`. -/
def ResnetBlock.forward (B : ResnetBlock) (x : Tensor) : Tensor :=
  addT x (B.conv_block x)

/-- A stage of `SPADEGenerator.model3`: either a plain layer (`ConvTranspose2d`
or `ReLU`) or a `SPADE` layer, which additionally receives the condition map —
mirroring the `isinstance(m, SPADE)` dispatch in the forward loop. -/
inductive SGUnit
  | plain (f : Tensor → Tensor)
  | spade (f : Tensor → Tensor → Tensor)

/-- Apply one `model3` stage, routing the condition map to SPADE stages only. -/
def SGUnit.apply (u : SGUnit) (out depth : Tensor) : Tensor :=
  match u with
  | SGUnit.plain f => f out
  | SGUnit.spade f => f out depth

/-- `SPADEGenerator` (model.py lines 116-185): `model0`/`model1`/`model4`
are plain sequentials, `model2` is the list of `SPADEResidualBlock`s (each
taking the condition map), `model3` is the upsampling list mixing plain layers
with `SPADE` layers. -/
structure SPADEGenerator where
  model0 : Tensor → Tensor
  model1 : Tensor → Tensor
  model2 : List (Tensor → Tensor → Tensor)
  model3 : List SGUnit
  model4 : Tensor → Tensor

/-- The body of `SPADEGenerator.forward` after the condition map has been
preprocessed: `model0`, `model1`, the `model2` loop feeding `depth` to every
block, the `model3` loop feeding `depth` to the SPADE stages, `model4`. -/
def SPADEGenerator.run (G : SPADEGenerator) (x depth : Tensor) : Tensor :=
  let out := G.model0 x
  let out := G.model1 out
  let out := G.model2.foldl (fun o m => m o depth) out
  let out := G.model3.foldl (fun o u => u.apply o depth) out
  G.model4 out

/-- `SPADEGenerator.forward (x, depth, sign, cond)` (model.py lines 165-185).
`r` is the value drawn by `torch.rand(1)`, uniform in `[0,1)`;
`random_tensor` is `(r * 2).floor_()`.  The `if sign == 0 / elif sign == 1 /
elif sign == 2` chain has no `else`, so any other `sign` leaves `depth`
untouched. -/
def SPADEGenerator.forward (G : SPADEGenerator) (sign : ℤ) (r : ℚ)
    (x depth : Tensor) : Tensor :=
  let random_tensor : ℚ := ((⌊r * 2⌋ : ℤ) : ℚ)
  let depth :=
    if sign = 0 then smulT random_tensor depth
    else if sign = 1 then depth
    else if sign = 2 then smulT 0 depth
    else depth
  G.run x depth

/-- Multiplying a tensor by the broadcast scalar `0` yields the all-zero
tensor of the same length. -/
theorem smulT_zero (t : Tensor) : smulT 0 t = List.replicate t.length 0 := by
  induction t with
  | nil => rfl
  | cons a t ih =>
      show (0 * a) :: smulT 0 t = 0 :: List.replicate t.length 0
      rw [zero_mul, ih]

/-- Claim C3: each residual block satisfies `output = input + F(input)`
exactly, where `F` is the block's convolutional path: for `ResidualBlock` the
seven-layer sequential, for `SPADEResidualBlock` the two-conv/two-SPADE path
applied to `x` and `depth`, and for `ResnetBlock` its assembled
`conv_block`. -/
theorem residual_blocks_skip_connection
    (B : ResidualBlock) (S : SPADEResidualBlock) (R : ResnetBlock)
    (x depth : Tensor) :
    B.forward x = addT x (B.norm2 (B.conv2 (B.pad2 (B.act (B.norm1 (B.conv1 (B.pad1 x))))))) ∧
    S.forward x depth =
      addT x (S.norm_layer1 (S.conv1 (S.pad1 (S.relu1
        (S.norm_layer0 (S.conv0 (S.pad0 x)) depth)))) depth) ∧
    R.forward x = addT x (R.conv_block x) := by
  refine ⟨rfl, rfl, rfl⟩

/-- Claim C2: for a fixed input and condition map, `SPADEGenerator.forward`
applies exactly three behaviors to the condition map before use: `sign = 0`
multiplies it by the single scalar `⌊r * 2⌋`, which is `0` or `1` when `r` is
a uniform draw from `[0,1)` and is shared across the whole batch (one scalar,
not one per example); `sign = 1` passes it through unchanged; `sign = 2`
forces it to all-zero, and the `sign = 2` output equals calling the generator
with `sign = 1` on an all-zero condition map of the same length. -/
theorem spadeGenerator_mode_behaviors (G : SPADEGenerator) (r : ℚ)
    (x depth : Tensor) (h0 : 0 ≤ r) (h1 : r < 1) :
    (⌊r * 2⌋ = 0 ∨ ⌊r * 2⌋ = 1) ∧
    G.forward 0 r x depth = G.run x (smulT ((⌊r * 2⌋ : ℤ) : ℚ) depth) ∧
    G.forward 1 r x depth = G.run x depth ∧
    G.forward 2 r x depth = G.run x (List.replicate depth.length 0) ∧
    G.forward 2 r x depth = G.forward 1 r x (List.replicate depth.length 0) := by
  refine ⟨?_, rfl, rfl, ?_, ?_⟩
  · have hlo : (0 : ℤ) ≤ ⌊r * 2⌋ := by
      apply Int.floor_nonneg.mpr
      positivity
    have hhi : ⌊r * 2⌋ < 2 := by
      apply Int.floor_lt.mpr
      push_cast
      linarith
    omega
  · show G.run x (smulT 0 depth) = _
    rw [smulT_zero]
  · show G.run x (smulT 0 depth) = G.forward 1 r x (List.replicate depth.length 0)
    rw [smulT_zero]
    rfl

/-- A concrete generator instance used to exercise the forward pass: the
plain stages are identities, and both the residual stage and the SPADE
upsampling stage add the condition map pointwise. -/
def sgExample : SPADEGenerator :=
  ⟨fun t => t, fun t => t, [fun o d => addT o d], [SGUnit.spade (fun o d => addT o d)],
    fun t => t⟩

/-- Witness for C2: the theorem instantiated at `r = 1/2`, `x = [1, 2]`,
`depth = [3, 4]` on the concrete generator. -/
theorem spadeGenerator_mode_behaviors_witness :
    (0 : ℚ) ≤ 1 / 2 ∧ (1 / 2 : ℚ) < 1 ∧
    ((⌊(1 / 2 : ℚ) * 2⌋ = 0 ∨ ⌊(1 / 2 : ℚ) * 2⌋ = 1) ∧
     sgExample.forward 0 (1 / 2) [1, 2] [3, 4] =
       sgExample.run [1, 2] (smulT ((⌊(1 / 2 : ℚ) * 2⌋ : ℤ) : ℚ) [3, 4]) ∧
     sgExample.forward 1 (1 / 2) [1, 2] [3, 4] = sgExample.run [1, 2] [3, 4] ∧
     sgExample.forward 2 (1 / 2) [1, 2] [3, 4] =
       sgExample.run [1, 2] (List.replicate (List.length [(3 : ℚ), 4]) 0) ∧
     sgExample.forward 2 (1 / 2) [1, 2] [3, 4] =
       sgExample.forward 1 (1 / 2) [1, 2] (List.replicate (List.length [(3 : ℚ), 4]) 0)) :=
  ⟨by norm_num, by norm_num,
    spadeGenerator_mode_behaviors sgExample (1 / 2) [1, 2] [3, 4]
      (by norm_num) (by norm_num)⟩

/-- Claim C10: any `sign` value outside `{0, 1, 2}` raises no error and
leaves the condition map unchanged: the forward pass behaves exactly as with
`sign = 1`. -/
theorem spadeGenerator_sign_out_of_range (G : SPADEGenerator) (sign : ℤ)
    (r : ℚ) (x depth : Tensor)
    (hn0 : sign ≠ 0) (hn1 : sign ≠ 1) (hn2 : sign ≠ 2) :
    G.forward sign r x depth = G.forward 1 r x depth := by
  simp [SPADEGenerator.forward, hn0, hn1, hn2]

/-- Witness for C10: `sign = 3` on the concrete generator. -/
theorem spadeGenerator_sign_out_of_range_witness :
    (3 : ℤ) ≠ 0 ∧ (3 : ℤ) ≠ 1 ∧ (3 : ℤ) ≠ 2 ∧
    sgExample.forward 3 (1 / 2) [1, 2] [3, 4] =
      sgExample.forward 1 (1 / 2) [1, 2] [3, 4] :=
  ⟨by decide, by decide, by decide,
    spadeGenerator_sign_out_of_range sgExample 3 (1 / 2) [1, 2] [3, 4]
      (by decide) (by decide) (by decide)⟩

/-- Output spatial extent of `nn.Conv2d` along one axis (framework formula
with dilation 1): `(h + 2*padding - kernel) / stride + 1`. -/
def conv2dOutDim (h k stride pad : ℕ) : ℕ :=
  (h + 2 * pad - k) / stride + 1

/-- Output spatial extent of `nn.ConvTranspose2d` along one axis (framework
formula with dilation 1):
`(h - 1)*stride - 2*padding + (kernel - 1) + output_padding + 1`,
with the subtraction of `2*padding` performed last. -/
def convTranspose2dOutDim (h k stride pad outPad : ℕ) : ℕ :=
  (h - 1) * stride + (k - 1) + outPad + 1 - 2 * pad

/-- The four extents `(N, C, H, W)` of a feature map. -/
structure Shape4 where
  n : ℕ
  c : ℕ
  h : ℕ
  w : ℕ
deriving DecidableEq, Repr

/-- Shape action of `nn.Conv2d(inC, outC, kernel_size=k, padding=p)` with
stride `s`: requires the input channel count to match `inC`. -/
def conv2dShape (inC outC k s p : ℕ) (x : Shape4) : Option Shape4 :=
  if x.c = inC then
    some ⟨x.n, outC, conv2dOutDim x.h k s p, conv2dOutDim x.w k s p⟩
  else
    none

/-- Shape action of `F.interpolate(segmap, size=x.size()[2:])`: the spatial
extents are replaced by the requested size. -/
def interpolateShape (hw : ℕ × ℕ) (x : Shape4) : Shape4 :=
  ⟨x.n, x.c, hw.1, hw.2⟩

/-- Broadcasting of one extent for an elementwise operation: equal extents,
or one of them `1`. -/
def bcastDim (a b : ℕ) : Option ℕ :=
  if a = b then some a
  else if a = 1 then some b
  else if b = 1 then some a
  else none

/-- Broadcasting of two 4-d shapes for an elementwise operation. -/
def bcastShape (a b : Shape4) : Option Shape4 := do
  let n ← bcastDim a.n b.n
  let c ← bcastDim a.c b.c
  let h ← bcastDim a.h b.h
  let w ← bcastDim a.w b.w
  some ⟨n, c, h, w⟩

/-- Shape action of `SPADE.forward` (model.py lines 53-67) for a `SPADE`
built with kernel size `ks`, normalized-channel count `norm_nc` and
condition-channel count `label_nc` (model.py lines 45-51): the parameter-free
normalization preserves `x`'s shape; `segmap` is interpolated to `x`'s
spatial size; `mlp_shared` is `Conv2d(label_nc, 128, ks, padding=ks//2)`
followed by ReLU; `mlp_gamma` and `mlp_beta` are
`Conv2d(128, norm_nc, ks, padding=ks//2)`; the result shape is that of the
elementwise `normalized * (1 + gamma) + beta`. -/
def spadeForwardShape (ks norm_nc label_nc : ℕ) (x segmap : Shape4) :
    Option Shape4 := do
  let pw := ks / 2
  let normalized := x
  let seg := interpolateShape (x.h, x.w) segmap
  let actv ← conv2dShape label_nc 128 ks 1 pw seg
  let gamma ← conv2dShape 128 norm_nc ks 1 pw actv
  let beta ← conv2dShape 128 norm_nc ks 1 pw actv
  let t ← bcastShape normalized gamma
  bcastShape t beta

/-- A convolution with odd kernel `k`, stride 1 and padding `k / 2` preserves
a positive spatial extent. -/
theorem conv2dOutDim_same (h k : ℕ) (hk : k % 2 = 1) (hh : 1 ≤ h) :
    conv2dOutDim h k 1 (k / 2) = h := by
  unfold conv2dOutDim
  omega

/-- Claim C1: for every odd kernel size `ks` and input `x` of shape
`(N,C,H,W)` with `C = norm_nc` and positive spatial extents, and every
condition map of the same batch size with `C' = label_nc`, `SPADE.forward`
produces exactly `x`'s shape. -/
theorem SPADE_forward_shape (ks norm_nc label_nc : ℕ) (x segmap : Shape4)
    (hk : ks % 2 = 1) (hc : x.c = norm_nc) (hsc : segmap.c = label_nc)
    (hn : segmap.n = x.n) (hh : 1 ≤ x.h) (hw : 1 ≤ x.w) :
    spadeForwardShape ks norm_nc label_nc x segmap = some x := by
  have hH := conv2dOutDim_same x.h ks hk hh
  have hW := conv2dOutDim_same x.w ks hk hw
  simp only [spadeForwardShape, interpolateShape, conv2dShape, hsc, if_pos,
    Option.bind_eq_bind]
  simp only [hH, hW, Option.some_bind, if_pos rfl]
  simp only [bcastShape, bcastDim, hn, hc, if_pos rfl, Option.some_bind]
  cases x
  simp_all

/-- Witness for C1: kernel size 3, `x` of shape `(1, 2, 5, 6)`,
condition map of shape `(1, 3, 9, 9)`. -/
theorem SPADE_forward_shape_witness :
    (3 % 2 = 1 ∧ Shape4.c ⟨1, 2, 5, 6⟩ = 2 ∧ Shape4.c ⟨1, 3, 9, 9⟩ = 3 ∧
      Shape4.n ⟨1, 3, 9, 9⟩ = Shape4.n ⟨1, 2, 5, 6⟩ ∧
      1 ≤ Shape4.h ⟨1, 2, 5, 6⟩ ∧ 1 ≤ Shape4.w ⟨1, 2, 5, 6⟩) ∧
    spadeForwardShape 3 2 3 ⟨1, 2, 5, 6⟩ ⟨1, 3, 9, 9⟩ = some ⟨1, 2, 5, 6⟩ :=
  ⟨by decide,
    SPADE_forward_shape 3 2 3 ⟨1, 2, 5, 6⟩ ⟨1, 3, 9, 9⟩
      (by decide) (by decide) (by decide) (by decide) (by decide) (by decide)⟩

/-- Spatial action of `nn.ReflectionPad2d(p)` along one axis: the framework
rejects a reflection padding that is not strictly smaller than the input
extent ("Padding size should be less than the corresponding input
dimension"), raising a `RuntimeError`; a legal pad adds `2*p`. -/
def reflectionPad2dDim (p h : ℕ) : Option ℕ :=
  if p < h then some (h + 2 * p) else none

/-- Spatial effect of one `ResidualBlock` / `SPADEResidualBlock` at the
bottleneck: `ReflectionPad2d(1)` then `Conv2d(k=3)` twice (the SPADE layers
and activations preserve the spatial extent); `none` when a reflection pad is
illegal for its input extent. -/
def residualBlockSpatial (h : ℕ) : Option ℕ :=
  (reflectionPad2dDim 1 h).bind fun h1 =>
  (reflectionPad2dDim 1 (conv2dOutDim h1 3 1 0)).bind fun h3 =>
  some (conv2dOutDim h3 3 1 0)

/-- Spatial effect of the stack of `n` residual blocks at the bottleneck. -/
def residualBlocksSpatial : ℕ → ℕ → Option ℕ
  | 0, h => some h
  | n + 1, h => (residualBlockSpatial h).bind (residualBlocksSpatial n)

/-- Spatial extent along one axis through `Generator.forward`
(model.py lines 188-243): stem `ReflectionPad2d(3)` + `Conv2d(k=7)`; two
`Conv2d(k=3, stride=2, padding=1)` downsampling stages; `n_res` residual
blocks; two `ConvTranspose2d(k=3, stride=2, padding=1, output_padding=1)`
upsampling stages; output `ReflectionPad2d(3)` + `Conv2d(k=7)`.
Normalizations, activations and the optional sigmoid preserve shape; the
result is `none` when any reflection pad is illegal for its input extent. -/
def generatorSpatial (n_res h : ℕ) : Option ℕ :=
  (reflectionPad2dDim 3 h).bind fun s0p =>
  let s0 := conv2dOutDim s0p 7 1 0
  let s1 := conv2dOutDim s0 3 2 1
  let s2 := conv2dOutDim s1 3 2 1
  (residualBlocksSpatial n_res s2).bind fun s3 =>
  let s4 := convTranspose2dOutDim s3 3 2 1 1
  let s5 := convTranspose2dOutDim s4 3 2 1 1
  (reflectionPad2dDim 3 s5).bind fun s6p =>
  some (conv2dOutDim s6p 7 1 0)

/-- Spatial extent along one axis through `SPADEGenerator.forward`
(model.py lines 116-185): the layer-by-layer spatial arithmetic is the same
as `Generator`'s — the conditioned residual blocks use the same
`ReflectionPad2d(1)` + `Conv2d(k=3)` convolutions, and each 3x3 `SPADE`
preserves the spatial extent of its input (its condition branch is
interpolated to the input's spatial size and its convolutions use
`padding = 3 // 2 = 1`). -/
def spadeGeneratorSpatial (n_res h : ℕ) : Option ℕ :=
  (reflectionPad2dDim 3 h).bind fun s0p =>
  let s0 := conv2dOutDim s0p 7 1 0
  let s1 := conv2dOutDim s0 3 2 1
  let s2 := conv2dOutDim s1 3 2 1
  (residualBlocksSpatial n_res s2).bind fun s3 =>
  let s4 := convTranspose2dOutDim s3 3 2 1 1
  let s5 := convTranspose2dOutDim s4 3 2 1 1
  (reflectionPad2dDim 3 s5).bind fun s6p =>
  some (conv2dOutDim s6p 7 1 0)

/-- A residual block is well defined on, and preserves, any spatial extent of
at least 2 (its two `ReflectionPad2d(1)` need `1 < h`). -/
theorem residualBlockSpatial_same (h : ℕ) (hh : 2 ≤ h) :
    residualBlockSpatial h = some h := by
  have hp : reflectionPad2dDim 1 h = some (h + 2 * 1) := by
    unfold reflectionPad2dDim
    rw [if_pos (by omega)]
  have hc : conv2dOutDim (h + 2 * 1) 3 1 0 = h := by
    unfold conv2dOutDim
    omega
  simp only [residualBlockSpatial, hp, hc, Option.some_bind]

/-- The stack of residual blocks is well defined on, and preserves, any
spatial extent of at least 2. -/
theorem residualBlocksSpatial_same (n h : ℕ) (hh : 2 ≤ h) :
    residualBlocksSpatial n h = some h := by
  induction n with
  | zero => rfl
  | succ n ih =>
      rw [residualBlocksSpatial, residualBlockSpatial_same h hh,
        Option.some_bind, ih]

/-- Counterexample to claim C7 as stated: `H = 6` is even and every layer of
the pipeline is well defined on it, yet both generators return spatial extent
`8`, not `6` — the two stride-2 downsampling stages round `6` to `3` to `2`,
and the two upsampling stages double `2` to `8`. -/
theorem generator_spatial_not_preserved_at_6 :
    generatorSpatial 9 6 = some 8 ∧ spadeGeneratorSpatial 9 6 = some 8 ∧
    generatorSpatial 9 6 ≠ some 6 ∧ spadeGeneratorSpatial 9 6 ≠ some 6 := by
  refine ⟨by decide, by decide, by decide, by decide⟩

/-- Below the architecture's minimum the generators do not return at all:
at `H = 8` every layer is defined, but at `H = 4` the bottleneck is `1` and
the residual blocks' `ReflectionPad2d(1)` raises (pad not `< 1`), so `4` is
not "above the architecture's minimum". -/
theorem generatorSpatial_none_at_4 :
    generatorSpatial 9 4 = none ∧ spadeGeneratorSpatial 9 4 = none := by
  refine ⟨by decide, by decide⟩

/-- Claim C7 (amended): for spatial extents divisible by 4 (not merely even)
and at least 8 — the architecture's minimum: below 8 the bottleneck extent is
1 and the residual blocks' `ReflectionPad2d(1)` raises — both
`Generator.forward` and `SPADEGenerator.forward` in the 2-down/2-up
configuration are defined and return exactly the input spatial extent. -/
theorem generator_spatial_preserved (n_res h : ℕ)
    (h4 : h % 4 = 0) (hmin : 8 ≤ h) :
    generatorSpatial n_res h = some h ∧ spadeGeneratorSpatial n_res h = some h := by
  obtain ⟨m, rfl⟩ : ∃ m, h = 4 * m := ⟨h / 4, by omega⟩
  have hm : 2 ≤ m := by omega
  have hp3 : reflectionPad2dDim 3 (4 * m) = some (4 * m + 2 * 3) := by
    unfold reflectionPad2dDim
    rw [if_pos (by omega)]
  have hs0 : conv2dOutDim (4 * m + 2 * 3) 7 1 0 = 4 * m := by
    unfold conv2dOutDim; omega
  have hs1 : conv2dOutDim (4 * m) 3 2 1 = 2 * m := by
    unfold conv2dOutDim; omega
  have hs2 : conv2dOutDim (2 * m) 3 2 1 = m := by
    unfold conv2dOutDim; omega
  have hs3 : residualBlocksSpatial n_res m = some m :=
    residualBlocksSpatial_same n_res m hm
  have hs4 : convTranspose2dOutDim m 3 2 1 1 = 2 * m := by
    unfold convTranspose2dOutDim; omega
  have hs5 : convTranspose2dOutDim (2 * m) 3 2 1 1 = 4 * m := by
    unfold convTranspose2dOutDim; omega
  constructor
  · simp only [generatorSpatial, hp3, Option.some_bind, hs0, hs1, hs2, hs3,
      hs4, hs5]
  · simp only [spadeGeneratorSpatial, hp3, Option.some_bind, hs0, hs1, hs2,
      hs3, hs4, hs5]

/-- Witness for the amended C7: `H = 8` with 9 residual blocks. -/
theorem generator_spatial_preserved_witness :
    (8 % 4 = 0 ∧ 8 ≤ 8) ∧
    generatorSpatial 9 8 = some 8 ∧ spadeGeneratorSpatial 9 8 = some 8 :=
  ⟨by decide, generator_spatial_preserved 9 8 (by decide) (by decide)⟩

/-- Configuration of one `nn.ConvTranspose2d` layer. -/
structure ConvT2dCfg where
  inC : ℕ
  outC : ℕ
  k : ℕ
  stride : ℕ
  pad : ℕ
  outPad : ℕ
deriving DecidableEq, Repr

/-- One "downsampling" stage of `GlobalGenerator2.__init__` (model.py lines
298-301): `nn.ConvTranspose2d(ngf * mult, ngf * mult // 2, kernel_size=4,
stride=2, padding=1)`. -/
def gg2DownStage (ngf mult : ℕ) : ConvT2dCfg :=
  ⟨ngf * mult, ngf * mult / 2, 4, 2, 1, 0⟩

/-- Spatial action of a `ConvTranspose2d` layer along one axis. -/
def convT2dSpatial (c : ConvT2dCfg) (h : ℕ) : ℕ :=
  convTranspose2dOutDim h c.k c.stride c.pad c.outPad

/-- The multiplier sequence of the downsampling loop: `mult` starts at 8 and
is halved after each stage (`mult = mult // 2`). -/
def gg2MultSeq : ℕ → ℕ
  | 0 => 8
  | n + 1 => gg2MultSeq n / 2

/-- Counterexample to claim C6 as stated: the stage built with the initial
multiplier 8 does not leave the spatial size unchanged — on input extent 4 it
produces 8 (a `k=4, stride=2, padding=1` transposed convolution doubles the
spatial size). -/
theorem gg2DownStage_spatial_not_unchanged :
    convT2dSpatial (gg2DownStage 64 8) 4 = 8 ∧
    convT2dSpatial (gg2DownStage 64 8) 4 ≠ 4 := by
  refine ⟨by decide, by decide⟩

/-- Claim C6 (amended): each "downsampling" stage of `GlobalGenerator2` is a
transposed convolution taking `ngf*mult` channels to `ngf*mult/2` (with
`mult` starting at 8 and halving per stage), and it doubles — rather than
preserves — any positive spatial extent. -/
theorem gg2DownStage_channels_halve_spatial_doubles (ngf mult h i : ℕ)
    (hh : 1 ≤ h) :
    (gg2DownStage ngf mult).inC = ngf * mult ∧
    (gg2DownStage ngf mult).outC = ngf * mult / 2 ∧
    gg2MultSeq 0 = 8 ∧ gg2MultSeq (i + 1) = gg2MultSeq i / 2 ∧
    convT2dSpatial (gg2DownStage ngf mult) h = 2 * h := by
  refine ⟨rfl, rfl, rfl, rfl, ?_⟩
  show convTranspose2dOutDim h 4 2 1 0 = 2 * h
  unfold convTranspose2dOutDim
  omega

/-- Witness for the amended C6: `ngf = 64`, `mult = 8`, input extent 4. -/
theorem gg2DownStage_channels_halve_spatial_doubles_witness :
    1 ≤ 4 ∧
    ((gg2DownStage 64 8).inC = 64 * 8 ∧
     (gg2DownStage 64 8).outC = 64 * 8 / 2 ∧
     gg2MultSeq 0 = 8 ∧ gg2MultSeq (0 + 1) = gg2MultSeq 0 / 2 ∧
     convT2dSpatial (gg2DownStage 64 8) 4 = 2 * 4) :=
  ⟨by decide, gg2DownStage_channels_halve_spatial_doubles 64 8 4 0 (by decide)⟩

/-- Attempt to match the pattern `spade(\D+)(\d)x\d` at the start of `cs`:
the literal `spade`, then the greedy `\D+` — which is forced to the maximal
run of non-digits, since the following token `\d` can never match a character
that `\D+` gave back — then the captured digit, the literal `x`, and a final
digit.  Returns `(group 1, group 2)` on success. -/
def matchSpadeAt (cs : List Char) : Option (List Char × Char) :=
  match cs with
  | 's' :: 'p' :: 'a' :: 'd' :: 'e' :: rest =>
    let nd := rest.takeWhile (fun c => !c.isDigit)
    if nd.isEmpty then none
    else
      match rest.dropWhile (fun c => !c.isDigit) with
      | d :: 'x' :: d2 :: _ => if d2.isDigit then some (nd, d) else none
      | _ => none
  | _ => none

/-- `re.search('spade(\D+)(\d)x\d', text)`: try each start position from the
left and return the first successful match's groups. -/
def searchSpade : List Char → Option (List Char × Char)
  | [] => none
  | c :: cs =>
    match matchSpadeAt (c :: cs) with
    | some r => some r
    | none => searchSpade cs

/-- `int` value of a digit character (`int(parsed.group(2))`). -/
def digitVal (c : Char) : ℕ := c.toNat - '0'.toNat

/-- The parameter-free normalization chosen by `SPADE.__init__`. -/
inductive ParamFreeNorm
  | instanceNorm2d (norm_nc : ℕ)
  | batchNorm2d (norm_nc : ℕ)
deriving DecidableEq, Repr

/-- The state a successfully constructed `SPADE` module holds. -/
structure SPADEConfig where
  param_free_norm : ParamFreeNorm
  ks : ℕ
  norm_nc : ℕ
  label_nc : ℕ
deriving DecidableEq, Repr

/-- `SPADE.__init__(config_text, norm_nc, label_nc)` (model.py lines 26-51),
up to the choice of normalization: the `assert config_text.startswith
('spade')`, the regex search (a failed search leaves `parsed = None` and the
subsequent `.group(1)` raises), and the `instance` / `batch` / `raise
ValueError` dispatch.  Errors carry the raised message as a `List Char`. -/
def SPADE_init (config_text : String) (norm_nc label_nc : ℕ) :
    Except (List Char) SPADEConfig :=
  if ("spade".toList.isPrefixOf config_text.toList) = false then
    Except.error "AssertionError".toList
  else
    match searchSpade config_text.toList with
    | none => Except.error "AttributeError: NoneType object has no attribute group".toList
    | some (nd, d) =>
      if nd = "instance".toList then
        Except.ok ⟨ParamFreeNorm.instanceNorm2d norm_nc, digitVal d, norm_nc, label_nc⟩
      else if nd = "batch".toList then
        Except.ok ⟨ParamFreeNorm.batchNorm2d norm_nc, digitVal d, norm_nc, label_nc⟩
      else
        Except.error (nd ++ " is not a recognized param-free norm type in SPADE".toList)

/-- Claim C4: whenever the configuration string passes the `spade` prefix
assertion and the regular expression parses it, a parsed normalization type
outside `{instance, batch}` makes construction fail with a `ValueError`
naming the invalid value, with no silent default — and either of the two
recognized values makes construction succeed. -/
theorem SPADE_init_norm_type_enforced (cfg : String) (nc lc : ℕ)
    (nd : List Char) (d : Char)
    (hpre : "spade".toList.isPrefixOf cfg.toList = true)
    (hparse : searchSpade cfg.toList = some (nd, d)) :
    (nd ≠ "instance".toList → nd ≠ "batch".toList →
       SPADE_init cfg nc lc =
         Except.error (nd ++ " is not a recognized param-free norm type in SPADE".toList)) ∧
    ((nd = "instance".toList ∨ nd = "batch".toList) →
       ∃ c, SPADE_init cfg nc lc = Except.ok c) := by
  have heq : SPADE_init cfg nc lc =
      (if nd = "instance".toList then
        Except.ok ⟨ParamFreeNorm.instanceNorm2d nc, digitVal d, nc, lc⟩
      else if nd = "batch".toList then
        Except.ok ⟨ParamFreeNorm.batchNorm2d nc, digitVal d, nc, lc⟩
      else
        Except.error
          (nd ++ " is not a recognized param-free norm type in SPADE".toList)) := by
    unfold SPADE_init
    rw [hpre, hparse]
    rfl
  constructor

  · intro hni hnb
    rw [heq, if_neg hni, if_neg hnb]
  · rintro (h | h)
    · exact ⟨_, by rw [heq, if_pos h]⟩
    · exact ⟨⟨ParamFreeNorm.batchNorm2d nc, digitVal d, nc, lc⟩, by
        have hne : nd ≠ "instance".toList := by
          rw [h]; decide
        rw [heq, if_neg hne, if_pos h]⟩

/-- Witness for C4: `"spadefoo3x3"` parses to the unrecognized type `foo`
and errors with a message naming it; `"spadeinstance3x3"` succeeds. -/
theorem SPADE_init_norm_type_enforced_witness :
    ("spade".toList.isPrefixOf "spadefoo3x3".toList = true ∧
     searchSpade "spadefoo3x3".toList = some ("foo".toList, '3') ∧
     "spade".toList.isPrefixOf "spadeinstance3x3".toList = true ∧
     searchSpade "spadeinstance3x3".toList = some ("instance".toList, '3')) ∧
    SPADE_init "spadefoo3x3" 4 3 =
      Except.error
        ("foo".toList ++ " is not a recognized param-free norm type in SPADE".toList) ∧
    (∃ c, SPADE_init "spadeinstance3x3" 4 3 = Except.ok c) :=
  ⟨⟨by decide, by decide, by decide, by decide⟩,
    (SPADE_init_norm_type_enforced "spadefoo3x3" 4 3 "foo".toList '3'
      (by decide) (by decide)).1 (by decide) (by decide),
    (SPADE_init_norm_type_enforced "spadeinstance3x3" 4 3 "instance".toList '3'
      (by decide) (by decide)).2 (Or.inl rfl)⟩

/-- A layer as assembled by `ResnetBlock.build_conv_block`. -/
inductive LayerSpec
  | reflectionPad (p : ℕ)
  | replicationPad (p : ℕ)
  | conv2d (dim k p : ℕ)
  | normLayer (dim : ℕ)
  | activation
  | dropout
deriving DecidableEq, Repr

/-- `ResnetBlock.build_conv_block(dim, padding_type, norm_layer, activation,
use_dropout)` (model.py lines 251-281): each of the two halves first selects
the padding (`reflect` adds `ReflectionPad2d(1)`, `replicate` adds
`ReplicationPad2d(1)`, `zero` sets the convolution padding `p = 1`, anything
else raises `NotImplementedError`), then appends
`Conv2d(dim, dim, kernel_size=3, padding=p)` and the normalization; the first
half also appends the activation and, optionally, `Dropout(0.5)`. -/
def build_conv_block (dim : ℕ) (padding_type : String) (use_dropout : Bool) :
    Except (List Char) (List LayerSpec) := do
  let sel ←
    if padding_type = "reflect" then
      Except.ok ([LayerSpec.reflectionPad 1], 0)
    else if padding_type = "replicate" then
      Except.ok ([LayerSpec.replicationPad 1], 0)
    else if padding_type = "zero" then
      Except.ok ([], 1)
    else
      Except.error
        ("padding [".toList ++ padding_type.toList ++ "] is not implemented".toList)
  let half1 := sel.1 ++ [LayerSpec.conv2d dim 3 sel.2, LayerSpec.normLayer dim,
    LayerSpec.activation] ++ (if use_dropout then [LayerSpec.dropout] else [])
  let sel2 ←
    if padding_type = "reflect" then
      Except.ok ([LayerSpec.reflectionPad 1], 0)
    else if padding_type = "replicate" then
      Except.ok ([LayerSpec.replicationPad 1], 0)
    else if padding_type = "zero" then
      Except.ok ([], 1)
    else
      Except.error
        ("padding [".toList ++ padding_type.toList ++ "] is not implemented".toList)
  Except.ok (half1 ++ sel2.1 ++ [LayerSpec.conv2d dim 3 sel2.2, LayerSpec.normLayer dim])

/-- Claim C5: an unrecognized `padding_type` makes `ResnetBlock` construction
fail with a `NotImplementedError` naming the value, while each of the three
recognized values succeeds — `reflect` and `replicate` insert an explicit
padding layer before each convolution (whose own padding stays 0), and
`zero` inserts none but gives each convolution padding 1. -/
theorem build_conv_block_padding_type (dim : ℕ) (pt : String) (ud : Bool)
    (hr : pt ≠ "reflect") (hp : pt ≠ "replicate") (hz : pt ≠ "zero") :
    build_conv_block dim pt ud =
      Except.error
        ("padding [".toList ++ pt.toList ++ "] is not implemented".toList) ∧
    build_conv_block dim "reflect" ud =
      Except.ok ([LayerSpec.reflectionPad 1, LayerSpec.conv2d dim 3 0,
        LayerSpec.normLayer dim, LayerSpec.activation] ++
        (if ud then [LayerSpec.dropout] else []) ++
        [LayerSpec.reflectionPad 1, LayerSpec.conv2d dim 3 0,
         LayerSpec.normLayer dim]) ∧
    build_conv_block dim "replicate" ud =
      Except.ok ([LayerSpec.replicationPad 1, LayerSpec.conv2d dim 3 0,
        LayerSpec.normLayer dim, LayerSpec.activation] ++
        (if ud then [LayerSpec.dropout] else []) ++
        [LayerSpec.replicationPad 1, LayerSpec.conv2d dim 3 0,
         LayerSpec.normLayer dim]) ∧
    build_conv_block dim "zero" ud =
      Except.ok ([LayerSpec.conv2d dim 3 1, LayerSpec.normLayer dim,
        LayerSpec.activation] ++ (if ud then [LayerSpec.dropout] else []) ++
        [LayerSpec.conv2d dim 3 1, LayerSpec.normLayer dim]) := by
  refine ⟨?_, ?_, ?_, ?_⟩
  · unfold build_conv_block
    rw [if_neg hr, if_neg hp, if_neg hz]
    rfl
  · cases ud <;> rfl
  · cases ud <;> rfl
  · cases ud <;> rfl

/-- Witness for C5: `padding_type = "circular"` with `dim = 5`, dropout off. -/
theorem build_conv_block_padding_type_witness :
    ("circular" ≠ "reflect" ∧ "circular" ≠ "replicate" ∧ "circular" ≠ "zero") ∧
    build_conv_block 5 "circular" false =
      Except.error
        ("padding [".toList ++ "circular".toList ++ "] is not implemented".toList) ∧
    build_conv_block 5 "reflect" false =
      Except.ok ([LayerSpec.reflectionPad 1, LayerSpec.conv2d 5 3 0,
        LayerSpec.normLayer 5, LayerSpec.activation] ++
        (if false then [LayerSpec.dropout] else []) ++
        [LayerSpec.reflectionPad 1, LayerSpec.conv2d 5 3 0,
         LayerSpec.normLayer 5]) ∧
    build_conv_block 5 "replicate" false =
      Except.ok ([LayerSpec.replicationPad 1, LayerSpec.conv2d 5 3 0,
        LayerSpec.normLayer 5, LayerSpec.activation] ++
        (if false then [LayerSpec.dropout] else []) ++
        [LayerSpec.replicationPad 1, LayerSpec.conv2d 5 3 0,
         LayerSpec.normLayer 5]) ∧
    build_conv_block 5 "zero" false =
      Except.ok ([LayerSpec.conv2d 5 3 1, LayerSpec.normLayer 5,
        LayerSpec.activation] ++ (if false then [LayerSpec.dropout] else []) ++
        [LayerSpec.conv2d 5 3 1, LayerSpec.normLayer 5]) :=
  ⟨⟨by decide, by decide, by decide⟩,
    build_conv_block_padding_type 5 "circular" false
      (by decide) (by decide) (by decide)⟩

/-- `InceptionV3` (model.py lines 331-436) at the value level: the wrapped
network's sub-modules are abstract stage functions; `dropoutStage` models
`F.dropout(x, training=isTrain)`, whose behavior depends on the training
flag. -/
structure InceptionV3 where
  conv1a : Tensor → Tensor
  conv2a : Tensor → Tensor
  conv2b : Tensor → Tensor
  maxpool1 : Tensor → Tensor
  conv3b : Tensor → Tensor
  conv4a : Tensor → Tensor
  maxpool2 : Tensor → Tensor
  mixed5b : Tensor → Tensor
  mixed5c : Tensor → Tensor
  mixed5d : Tensor → Tensor
  mixed6a : Tensor → Tensor
  mixed6b : Tensor → Tensor
  mixed6c : Tensor → Tensor
  mixed6d : Tensor → Tensor
  mixed6e : Tensor → Tensor
  auxLogits : Tensor → Tensor
  mixed7a : Tensor → Tensor
  mixed7b : Tensor → Tensor
  mixed7c : Tensor → Tensor
  avgpool : Tensor → Tensor
  dropoutStage : Bool → Tensor → Tensor
  flattenStage : Tensor → Tensor
  fc : Tensor → Tensor

/-- `InceptionV3.forward(x)` (model.py lines 366-436): the stem and Mixed
stages are applied in order; `feat21` is the `Mixed_6b` activation; `aux` is
the auxiliary head's output when `isTrain and use_aux` holds and `None`
otherwise; after the classifier head, the method returns `(x, feat21)` when
`every_feat` is set and `(x, aux)` otherwise. -/
def InceptionV3.forward (M : InceptionV3) (every_feat isTrain use_aux : Bool)
    (x0 : Tensor) : Tensor × Option Tensor :=
  let x := M.conv1a x0
  let x := M.conv2a x
  let x := M.conv2b x
  let x := M.maxpool1 x
  let x := M.conv3b x
  let x := M.conv4a x
  let x := M.maxpool2 x
  let x := M.mixed5b x
  let x := M.mixed5c x
  let x := M.mixed5d x
  let x := M.mixed6a x
  let x := M.mixed6b x
  let feat21 := x
  let x := M.mixed6c x
  let x := M.mixed6d x
  let x := M.mixed6e x
  let aux_defined := isTrain && use_aux
  let aux : Option Tensor := if aux_defined then some (M.auxLogits x) else none
  let x := M.mixed7a x
  let x := M.mixed7b x
  let x := M.mixed7c x
  let x := M.avgpool x
  let feats := M.dropoutStage isTrain x
  let x := M.flattenStage feats
  let x := M.fc x
  if every_feat then (x, some feat21) else (x, aux)

/-- The `Mixed_6b` activation (`feat21`) of a forward pass. -/
def InceptionV3.feat21 (M : InceptionV3) (x0 : Tensor) : Tensor :=
  M.mixed6b (M.mixed6a (M.mixed5d (M.mixed5c (M.mixed5b (M.maxpool2
    (M.conv4a (M.conv3b (M.maxpool1 (M.conv2b (M.conv2a (M.conv1a x0)))))))))))

/-- The `Mixed_6e` activation (`feat3`, the auxiliary head's input) of a
forward pass. -/
def InceptionV3.feat3 (M : InceptionV3) (x0 : Tensor) : Tensor :=
  M.mixed6e (M.mixed6d (M.mixed6c (M.feat21 x0)))

/-- Claim C8: for a fixed input and fixed weights, the first tensor returned
by `InceptionV3.forward` is identical whether `every_feat` is true or false;
the flag only selects the second tensor — the `Mixed_6b` feature map when
true, the auxiliary logits-or-`None` when false. -/
theorem inception_every_feat_preserves_logits (M : InceptionV3)
    (isTrain use_aux : Bool) (x0 : Tensor) :
    (M.forward true isTrain use_aux x0).1 = (M.forward false isTrain use_aux x0).1 ∧
    (M.forward true isTrain use_aux x0).2 = some (M.feat21 x0) ∧
    (M.forward false isTrain use_aux x0).2 =
      (if isTrain && use_aux then some (M.auxLogits (M.feat3 x0)) else none) := by
  refine ⟨rfl, rfl, ?_⟩
  show (if isTrain && use_aux then some (M.auxLogits (M.feat3 x0)) else none) = _
  rfl

/-- One sub-module of `self.model_ft.children()`, abstracted to the
`requires_grad` flags of its parameters. -/
abbrev ChildParams := List Bool

/-- The freezing loop of `InceptionV3.__init__` (model.py lines 340-346):
`stop` starts at `start` and increases by one per child; a child seen while
`stop < 17` has every parameter's `requires_grad` set to `False`. -/
def freezeFrom : ℕ → List ChildParams → List ChildParams
  | _, [] => []
  | stop, c :: cs =>
      (if stop < 17 then c.map (fun _ => false) else c) :: freezeFrom (stop + 1) cs

/-- The `requires_grad` state of all children after `InceptionV3.__init__`'s
freezing rule: the loop runs only `if freeze and pretrain`. -/
def inceptionFreeze (freeze pretrain : Bool) (children : List ChildParams) :
    List ChildParams :=
  if freeze && pretrain then freezeFrom 0 children else children

/-- `freezeFrom stop` freezes exactly the first `17 - stop` children. -/
theorem freezeFrom_eq (stop : ℕ) (cs : List ChildParams) :
    freezeFrom stop cs =
      (cs.take (17 - stop)).map (fun c => c.map (fun _ => false)) ++
        cs.drop (17 - stop) := by
  induction cs generalizing stop with
  | nil => simp [freezeFrom]
  | cons c cs ih =>
      by_cases h : stop < 17
      · have h17 : 17 - stop = (17 - (stop + 1)) + 1 := by omega
        rw [freezeFrom, if_pos h, h17]
        simp only [List.take_succ_cons, List.map_cons, List.drop_succ_cons,
          List.cons_append]
        rw [ih (stop + 1)]
      · have h17 : 17 - stop = 0 := by omega
        rw [freezeFrom, if_neg h, h17]
        simp only [List.take_zero, List.map_nil, List.drop_zero,
          List.nil_append]
        have h17s : 17 - (stop + 1) = 0 := by omega
        rw [ih (stop + 1), h17s]
        simp

/-- Claim C9: with `freeze = True` and `pretrain = True`, exactly the
parameters of the first 17 sub-modules (in enumeration order) get
`requires_grad = False` while every later sub-module's parameters keep their
state; with `freeze` or `pretrain` false, no parameter's `requires_grad` is
touched. -/
theorem inception_freeze_first_17 (children : List ChildParams) :
    inceptionFreeze true true children =
      (children.take 17).map (fun c => c.map (fun _ => false)) ++
        children.drop 17 ∧
    inceptionFreeze false true children = children ∧
    inceptionFreeze true false children = children ∧
    inceptionFreeze false false children = children := by
  refine ⟨?_, rfl, rfl, rfl⟩
  show freezeFrom 0 children = _
  rw [freezeFrom_eq 0 children]
